import Mathlib

/-!
Verification of the pose-estimation post-processing core of the
computer-vision-web repository.

The numeric procedures of the repository (letterbox parameter computation,
best-detection selection from the raw model output, inverse coordinate
mapping, and the confidence-gated render decision) are embedded below as
executable Lean definitions over exact rationals; each definition carries a
comment pointing at the TypeScript source it is translated from.
-/

namespace CVWeb

/-- Bounding box in corner format, following the BoundingBox tuple
[x1, y1, x2, y2] of src/index.ts line 16. -/
structure Box where
  x1 : ℚ
  y1 : ℚ
  x2 : ℚ
  y2 : ℚ
deriving Repr, DecidableEq

/-- Keypoint with coordinates and confidence, following the Keypoint tuple
[x, y, confidence] of src/index.ts line 19. -/
structure Keypoint where
  x : ℚ
  y : ℚ
  conf : ℚ
deriving Repr, DecidableEq

/-- Model prediction, following the Prediction interface of
src/index.ts lines 22-26. -/
structure Prediction where
  box : Box
  score : ℚ
  keypoints : List Keypoint
deriving Repr, DecidableEq

/-- Parameters for transforming coordinates from model space back to the
original image space, following the TransformParams interface of
src/index.ts lines 29-35. -/
structure TransformParams where
  scale : ℚ
  xOffset : ℚ
  yOffset : ℚ
  originalWidth : ℚ
  originalHeight : ℚ
deriving Repr, DecidableEq

/-- Translation of transformCoordinate, src/index.ts lines 62-68:
return coord * scale - offset. -/
def transformCoordinate (coord scale offset : ℚ) : ℚ :=
  coord * scale - offset

/-- Translation of scalePrediction, src/index.ts lines 78-107: the four box
corners and the keypoint coordinates go through transformCoordinate (x
coordinates with xOffset, y coordinates with yOffset); the score and each
keypoint confidence are passed through unchanged. -/
def scalePrediction (p : Prediction) (tp : TransformParams) : Prediction :=
  { box :=
      { x1 := transformCoordinate p.box.x1 tp.scale tp.xOffset
        y1 := transformCoordinate p.box.y1 tp.scale tp.yOffset
        x2 := transformCoordinate p.box.x2 tp.scale tp.xOffset
        y2 := transformCoordinate p.box.y2 tp.scale tp.yOffset }
    score := p.score
    keypoints := p.keypoints.map fun k =>
      { x := transformCoordinate k.x tp.scale tp.xOffset
        y := transformCoordinate k.y tp.scale tp.yOffset
        conf := k.conf } }

/-- Letterbox parameters computed by processImageWithLetterboxing,
src/index.ts lines 245-292 (the numeric part of its result, including the
intermediate paddings). -/
structure LetterboxParams where
  targetSquareSize : ℕ
  leftPadding : ℕ
  rightPadding : ℕ
  topPadding : ℕ
  bottomPadding : ℕ
  scale : ℚ
  xOffset : ℕ
  yOffset : ℕ
deriving Repr, DecidableEq

/-- Translation of the letterbox arithmetic of processImageWithLetterboxing,
src/index.ts lines 245-280: targetSquareSize = max(width, height); the
before-padding on each axis is floor(totalPadding / 2) (Nat division models
Math.floor on the nonnegative difference) and the after-padding is the
remainder; scale = targetSquareSize / modelWidth; xOffset = leftPadding and
yOffset = topPadding. -/
def computeLetterbox (originalWidth originalHeight modelWidth : ℕ) :
    LetterboxParams :=
  let targetSquareSize := max originalWidth originalHeight
  let totalWidthPadding := targetSquareSize - originalWidth
  let totalHeightPadding := targetSquareSize - originalHeight
  let leftPadding := totalWidthPadding / 2
  let rightPadding := totalWidthPadding - leftPadding
  let topPadding := totalHeightPadding / 2
  let bottomPadding := totalHeightPadding - topPadding
  { targetSquareSize := targetSquareSize
    leftPadding := leftPadding
    rightPadding := rightPadding
    topPadding := topPadding
    bottomPadding := bottomPadding
    scale := (targetSquareSize : ℚ) / (modelWidth : ℚ)
    xOffset := leftPadding
    yOffset := topPadding }

/-- Transform parameters returned by processImageWithLetterboxing,
src/index.ts lines 284-290, assembled from the letterbox arithmetic. -/
def letterboxTransformParams (originalWidth originalHeight modelWidth : ℕ) :
    TransformParams :=
  let p := computeLetterbox originalWidth originalHeight modelWidth
  { scale := p.scale
    xOffset := (p.xOffset : ℚ)
    yOffset := (p.yOffset : ℚ)
    originalWidth := (originalWidth : ℚ)
    originalHeight := (originalHeight : ℚ) }

/-- Modelled from the spec: the coordinate-level forward letterbox map,
source space to model space (add the axis offset, then divide by scale).
The source implements the forward direction only at the pixel level, via
pad and resizeBilinear inside processImageWithLetterboxing (src/index.ts
lines 262-272); no coordinate-level forward function exists in src, so this
definition follows the formula stated in the spec round-trip property. -/
def forwardCoordinate (coord scale offset : ℚ) : ℚ :=
  (coord + offset) / scale

/-- Translation of the center-to-corner box conversion used by
getBestPrediction, src/index.ts lines 169-175: x1 = cx - w/2,
y1 = cy - h/2, x2 = cx + w/2, y2 = cy + h/2. -/
def cornerBox (cx cy w h : ℚ) : Box :=
  { x1 := cx - w / 2
    y1 := cy - h / 2
    x2 := cx + w / 2
    y2 := cy + h / 2 }

/-- Translation of the center-to-corner box conversion of the variant in
src/03-letterbox-input-processing.ts lines 44-47: x1 = cx - w/2,
y1 = cy - h/2, x2 = x1 + w, y2 = y1 + h. -/
def cornerBoxAlt (cx cy w h : ℚ) : Box :=
  let x1 := cx - w / 2
  let y1 := cy - h / 2
  { x1 := x1
    y1 := y1
    x2 := x1 + w
    y2 := y1 + h }

/-- Projection lemma: the scale computed by computeLetterbox. -/
theorem computeLetterbox_scale (W H modelW : ℕ) :
    (computeLetterbox W H modelW).scale = ((max W H : ℕ) : ℚ) / modelW := rfl

/-- Projection lemma: the left padding computed by computeLetterbox. -/
theorem computeLetterbox_leftPadding (W H modelW : ℕ) :
    (computeLetterbox W H modelW).leftPadding = (max W H - W) / 2 := rfl

/-- Projection lemma: the right padding computed by computeLetterbox. -/
theorem computeLetterbox_rightPadding (W H modelW : ℕ) :
    (computeLetterbox W H modelW).rightPadding =
      (max W H - W) - (max W H - W) / 2 := rfl

/-- Projection lemma: the top padding computed by computeLetterbox. -/
theorem computeLetterbox_topPadding (W H modelW : ℕ) :
    (computeLetterbox W H modelW).topPadding = (max W H - H) / 2 := rfl

/-- Projection lemma: the bottom padding computed by computeLetterbox. -/
theorem computeLetterbox_bottomPadding (W H modelW : ℕ) :
    (computeLetterbox W H modelW).bottomPadding =
      (max W H - H) - (max W H - H) / 2 := rfl

/-- Projection lemma: the x offset computed by computeLetterbox. -/
theorem computeLetterbox_xOffset (W H modelW : ℕ) :
    (computeLetterbox W H modelW).xOffset = (max W H - W) / 2 := rfl

/-- Projection lemma: the y offset computed by computeLetterbox. -/
theorem computeLetterbox_yOffset (W H modelW : ℕ) :
    (computeLetterbox W H modelW).yOffset = (max W H - H) / 2 := rfl

/-- C1: round-trip of the letterbox coordinate maps. For every source with
positive width and height and positive model width, mapping a source-space
coordinate forward (add the axis offset, divide by scale, with scale and
offsets from the letterbox computation) and then unmapping it with
transformCoordinate reproduces the original coordinate exactly over the
rationals, on both the x axis and the y axis. -/
theorem C1_letterbox_roundtrip (W H modelW : ℕ)
    (hW : 0 < W) (hH : 0 < H) (hm : 0 < modelW) (x y : ℚ) :
    transformCoordinate
        (forwardCoordinate x (computeLetterbox W H modelW).scale
          ((computeLetterbox W H modelW).xOffset : ℚ))
        (computeLetterbox W H modelW).scale
        ((computeLetterbox W H modelW).xOffset : ℚ) = x ∧
    transformCoordinate
        (forwardCoordinate y (computeLetterbox W H modelW).scale
          ((computeLetterbox W H modelW).yOffset : ℚ))
        (computeLetterbox W H modelW).scale
        ((computeLetterbox W H modelW).yOffset : ℚ) = y := by
  have hmax : 0 < max W H := lt_of_lt_of_le hW (le_max_left W H)
  have hT : ((max W H : ℕ) : ℚ) ≠ 0 := by exact_mod_cast hmax.ne.symm
  have hM : ((modelW : ℕ) : ℚ) ≠ 0 := by exact_mod_cast hm.ne.symm
  have hs : ((max W H : ℕ) : ℚ) / ((modelW : ℕ) : ℚ) ≠ 0 := div_ne_zero hT hM
  constructor <;>
    · simp only [computeLetterbox_scale, transformCoordinate, forwardCoordinate]
      rw [div_mul_cancel₀ _ hs]
      ring

/-- C1 witness: the round-trip theorem applied to the square source
640x640, the wide source 640x360, the tall source 360x640 and the
odd-difference source 251x100, each with model width 640, at the concrete
model-space coordinates produced from the source coordinates 7 and 11. -/
theorem C1_letterbox_roundtrip_witness :
    ((0 < 640 ∧ 0 < 640 ∧ 0 < 640) ∧
      transformCoordinate
          (forwardCoordinate 7 (computeLetterbox 640 640 640).scale
            ((computeLetterbox 640 640 640).xOffset : ℚ))
          (computeLetterbox 640 640 640).scale
          ((computeLetterbox 640 640 640).xOffset : ℚ) = 7 ∧
      transformCoordinate
          (forwardCoordinate 11 (computeLetterbox 640 640 640).scale
            ((computeLetterbox 640 640 640).yOffset : ℚ))
          (computeLetterbox 640 640 640).scale
          ((computeLetterbox 640 640 640).yOffset : ℚ) = 11) ∧
    ((0 < 640 ∧ 0 < 360 ∧ 0 < 640) ∧
      transformCoordinate
          (forwardCoordinate 7 (computeLetterbox 640 360 640).scale
            ((computeLetterbox 640 360 640).xOffset : ℚ))
          (computeLetterbox 640 360 640).scale
          ((computeLetterbox 640 360 640).xOffset : ℚ) = 7) ∧
    ((0 < 360 ∧ 0 < 640 ∧ 0 < 640) ∧
      transformCoordinate
          (forwardCoordinate 7 (computeLetterbox 360 640 640).scale
            ((computeLetterbox 360 640 640).xOffset : ℚ))
          (computeLetterbox 360 640 640).scale
          ((computeLetterbox 360 640 640).xOffset : ℚ) = 7) ∧
    ((0 < 251 ∧ 0 < 100 ∧ 0 < 640) ∧
      transformCoordinate
          (forwardCoordinate 11 (computeLetterbox 251 100 640).scale
            ((computeLetterbox 251 100 640).yOffset : ℚ))
          (computeLetterbox 251 100 640).scale
          ((computeLetterbox 251 100 640).yOffset : ℚ) = 11) :=
  ⟨⟨⟨by decide, by decide, by decide⟩,
    (C1_letterbox_roundtrip 640 640 640 (by decide) (by decide) (by decide)
      7 11).1,
    (C1_letterbox_roundtrip 640 640 640 (by decide) (by decide) (by decide)
      7 11).2⟩,
   ⟨⟨by decide, by decide, by decide⟩,
    (C1_letterbox_roundtrip 640 360 640 (by decide) (by decide) (by decide)
      7 11).1⟩,
   ⟨⟨by decide, by decide, by decide⟩,
    (C1_letterbox_roundtrip 360 640 640 (by decide) (by decide) (by decide)
      7 11).1⟩,
   ⟨⟨by decide, by decide, by decide⟩,
    (C1_letterbox_roundtrip 251 100 640 (by decide) (by decide) (by decide)
      7 11).2⟩⟩

/-- C3: letterbox padding totals are exact. For every source with positive
width and height, with targetSquareSize = max(width, height), the
before-padding of each axis (which equals the axis offset) plus the source
dimension plus the after-padding equals targetSquareSize; the two sides of
an axis differ by at most one pixel, and they differ exactly when the
dimension difference is odd. -/
theorem C3_padding_totals (W H modelW : ℕ) (hW : 0 < W) (hH : 0 < H) :
    (computeLetterbox W H modelW).xOffset =
        (computeLetterbox W H modelW).leftPadding ∧
    (computeLetterbox W H modelW).yOffset =
        (computeLetterbox W H modelW).topPadding ∧
    (computeLetterbox W H modelW).leftPadding + W +
        (computeLetterbox W H modelW).rightPadding = max W H ∧
    (computeLetterbox W H modelW).topPadding + H +
        (computeLetterbox W H modelW).bottomPadding = max W H ∧
    (computeLetterbox W H modelW).leftPadding ≤
        (computeLetterbox W H modelW).rightPadding ∧
    (computeLetterbox W H modelW).rightPadding ≤
        (computeLetterbox W H modelW).leftPadding + 1 ∧
    (computeLetterbox W H modelW).topPadding ≤
        (computeLetterbox W H modelW).bottomPadding ∧
    (computeLetterbox W H modelW).bottomPadding ≤
        (computeLetterbox W H modelW).topPadding + 1 ∧
    ((computeLetterbox W H modelW).rightPadding =
        (computeLetterbox W H modelW).leftPadding ↔ (max W H - W) % 2 = 0) ∧
    ((computeLetterbox W H modelW).bottomPadding =
        (computeLetterbox W H modelW).topPadding ↔ (max W H - H) % 2 = 0) := by
  have hWT : W ≤ max W H := le_max_left W H
  have hHT : H ≤ max W H := le_max_right W H
  simp only [computeLetterbox_xOffset, computeLetterbox_yOffset,
    computeLetterbox_leftPadding, computeLetterbox_rightPadding,
    computeLetterbox_topPadding, computeLetterbox_bottomPadding, true_and]
  generalize max W H = T at hWT hHT ⊢
  omega

/-- C3 witness: the padding-total theorem applied to the odd-difference
source 251x100 with model width 640. -/
theorem C3_padding_totals_witness :
    0 < 251 ∧ 0 < 100 ∧
    ((computeLetterbox 251 100 640).xOffset =
        (computeLetterbox 251 100 640).leftPadding ∧
      (computeLetterbox 251 100 640).yOffset =
        (computeLetterbox 251 100 640).topPadding ∧
      (computeLetterbox 251 100 640).leftPadding + 251 +
        (computeLetterbox 251 100 640).rightPadding = max 251 100 ∧
      (computeLetterbox 251 100 640).topPadding + 100 +
        (computeLetterbox 251 100 640).bottomPadding = max 251 100 ∧
      (computeLetterbox 251 100 640).leftPadding ≤
        (computeLetterbox 251 100 640).rightPadding ∧
      (computeLetterbox 251 100 640).rightPadding ≤
        (computeLetterbox 251 100 640).leftPadding + 1 ∧
      (computeLetterbox 251 100 640).topPadding ≤
        (computeLetterbox 251 100 640).bottomPadding ∧
      (computeLetterbox 251 100 640).bottomPadding ≤
        (computeLetterbox 251 100 640).topPadding + 1 ∧
      ((computeLetterbox 251 100 640).rightPadding =
        (computeLetterbox 251 100 640).leftPadding ↔
          (max 251 100 - 251) % 2 = 0) ∧
      ((computeLetterbox 251 100 640).bottomPadding =
        (computeLetterbox 251 100 640).topPadding ↔
          (max 251 100 - 100) % 2 = 0)) :=
  ⟨by decide, by decide, C3_padding_totals 251 100 640 (by decide) (by decide)⟩

/-- C4: box conversion from center format to corner format. For every
center-format input, the conversion used by getBestPrediction produces
x1 = cx - w/2, y1 = cy - h/2, x2 = x1 + w, y2 = y1 + h (so the variant
that computes x2 = cx + w/2 and y2 = cy + h/2 agrees with the formula of
the spec), and the two code variants of the conversion are equal. -/
theorem C4_box_conversion (cx cy w h : ℚ) :
    cornerBox cx cy w h =
      { x1 := cx - w / 2
        y1 := cy - h / 2
        x2 := (cx - w / 2) + w
        y2 := (cy - h / 2) + h } ∧
    cornerBoxAlt cx cy w h = cornerBox cx cy w h := by
  refine ⟨?_, ?_⟩ <;>
    · simp only [cornerBox, cornerBoxAlt, Box.mk.injEq]
      refine ⟨by ring, by ring, by ring, by ring⟩

/-- C5: coordinate unmapping. For every prediction and every transform
parameters, scalePrediction transforms each box corner and each keypoint
coordinate independently by coord * scale - offset, using xOffset for x
coordinates and yOffset for y coordinates, while the score and every
keypoint confidence are returned unchanged and no clamping is applied. -/
theorem C5_scale_prediction (p : Prediction) (tp : TransformParams) :
    (scalePrediction p tp).score = p.score ∧
    (scalePrediction p tp).box.x1 = p.box.x1 * tp.scale - tp.xOffset ∧
    (scalePrediction p tp).box.y1 = p.box.y1 * tp.scale - tp.yOffset ∧
    (scalePrediction p tp).box.x2 = p.box.x2 * tp.scale - tp.xOffset ∧
    (scalePrediction p tp).box.y2 = p.box.y2 * tp.scale - tp.yOffset ∧
    (scalePrediction p tp).keypoints = p.keypoints.map fun k =>
      { x := k.x * tp.scale - tp.xOffset
        y := k.y * tp.scale - tp.yOffset
        conf := k.conf } := by
  simp [scalePrediction, transformCoordinate]

/-- C10: the corner-format box keeps the raw width and height exactly. For
every center-format input, the box produced by the selector conversion
satisfies x2 - x1 = w and y2 - y1 = h over exact arithmetic, and the box is
degenerate on an axis (x2 < x1, respectively y2 < y1) exactly when the
corresponding raw channel is negative. -/
theorem C10_box_extent (cx cy w h : ℚ) :
    (cornerBox cx cy w h).x2 - (cornerBox cx cy w h).x1 = w ∧
    (cornerBox cx cy w h).y2 - (cornerBox cx cy w h).y1 = h ∧
    ((cornerBox cx cy w h).x2 < (cornerBox cx cy w h).x1 ↔ w < 0) ∧
    ((cornerBox cx cy w h).y2 < (cornerBox cx cy w h).y1 ↔ h < 0) := by
  refine ⟨by simp only [cornerBox]; ring, by simp only [cornerBox]; ring,
    ?_, ?_⟩ <;>
    · simp only [cornerBox]
      constructor <;> intro hlt <;> linarith

/-- Draw commands issued to the canvas collaborator, shallowly embedding the
calls made by renderPrediction, src/index.ts lines 115-146: the canvas size
assignment, clearRect, drawImage, strokeRect and the beginPath/arc/fill
triple per drawn keypoint (abstracted as one fillCircle command). -/
inductive DrawCmd where
  | setCanvasSize (w h : ℚ)
  | clearRect (x y w h : ℚ)
  | drawImage (w h : ℚ)
  | strokeRect (x y w h : ℚ)
  | fillCircle (x y r : ℚ)
deriving Repr, DecidableEq

/-- Confidence threshold, the CONFIDENCE_THRESHOLD constant 0.5 of
renderPrediction, src/index.ts line 116. -/
def CONFIDENCE_THRESHOLD : ℚ := 1 / 2

/-- Translation of renderPrediction, src/index.ts lines 115-146, as the list
of draw commands it issues: if score < CONFIDENCE_THRESHOLD it returns
without drawing; otherwise it sizes the canvas, clears it, draws the source
image, strokes the bounding box (as x, y, width, height), and draws a
circle of radius 5 for each keypoint whose own confidence is strictly
greater than the threshold, in keypoint order. -/
def renderPrediction (score : ℚ) (box : Box) (keypoints : List Keypoint)
    (width height : ℚ) : List DrawCmd :=
  if score < CONFIDENCE_THRESHOLD then
    []
  else
    [DrawCmd.setCanvasSize width height,
     DrawCmd.clearRect 0 0 width height,
     DrawCmd.drawImage width height,
     DrawCmd.strokeRect box.x1 box.y1 (box.x2 - box.x1) (box.y2 - box.y1)] ++
    ((keypoints.filter fun k => decide (CONFIDENCE_THRESHOLD < k.conf)).map
      fun k => DrawCmd.fillCircle k.x k.y 5)

/-- Recogniser for the fillCircle draw command. -/
def isFillCircle : DrawCmd → Bool
  | DrawCmd.fillCircle _ _ _ => true
  | _ => false

/-- C6 counterexample: a detection whose score is exactly the threshold 0.5
is drawn (the emitted command list is nonempty), contrary to the claim that
nothing is drawn at equality. -/
theorem C6_counterexample :
    renderPrediction CONFIDENCE_THRESHOLD
        { x1 := 0, y1 := 0, x2 := 1, y2 := 1 } [] 10 10 ≠ [] := by
  norm_num [renderPrediction, CONFIDENCE_THRESHOLD]
  exact List.cons_ne_nil _ _

/-- C6 amended: the render gate skips exactly the detections whose score is
strictly below the threshold. The render is a silent no-op, with no draw
commands at all, if and only if score < threshold; in particular a
detection whose score equals the threshold passes the strict less-than
skip test and is drawn, as is any detection above the threshold. -/
theorem C6_render_gate (score : ℚ) (box : Box) (keypoints : List Keypoint)
    (width height : ℚ) :
    renderPrediction score box keypoints width height = [] ↔
      score < CONFIDENCE_THRESHOLD := by
  unfold renderPrediction
  split <;> simp_all

/-- C7: dual-granularity confidence gating. For a detection that passes the
detection-level score gate, the bounding box is always stroked, and the
circles drawn are exactly those of the keypoints whose own per-point
confidence is strictly greater than the threshold, in order; keypoints with
confidence at most the threshold are omitted. -/
theorem C7_keypoint_gating (score : ℚ) (box : Box) (keypoints : List Keypoint)
    (width height : ℚ) (h : ¬ score < CONFIDENCE_THRESHOLD) :
    DrawCmd.strokeRect box.x1 box.y1 (box.x2 - box.x1) (box.y2 - box.y1) ∈
      renderPrediction score box keypoints width height ∧
    (renderPrediction score box keypoints width height).filter isFillCircle =
      (keypoints.filter fun k => decide (CONFIDENCE_THRESHOLD < k.conf)).map
        fun k => DrawCmd.fillCircle k.x k.y 5 := by
  unfold renderPrediction
  rw [if_neg h]
  constructor
  · simp
  · rw [List.filter_append, List.filter_map]
    have h2 : (isFillCircle ∘ fun k : Keypoint =>
        DrawCmd.fillCircle k.x k.y 5) = fun _ => true := by
      funext k
      rfl
    rw [h2]
    simp [isFillCircle]

/-- C7 witness: the gating theorem applied to a passing detection with one
keypoint above the threshold and one below: only the first keypoint's
circle is drawn and the box is stroked. -/
theorem C7_keypoint_gating_witness :
    ¬ (1 : ℚ) < CONFIDENCE_THRESHOLD ∧
    (DrawCmd.strokeRect 1 2 (3 - 1) (4 - 2) ∈
        renderPrediction 1 { x1 := 1, y1 := 2, x2 := 3, y2 := 4 }
          [{ x := 5, y := 6, conf := 1 }, { x := 7, y := 8, conf := 0 }]
          10 10 ∧
      (renderPrediction 1 { x1 := 1, y1 := 2, x2 := 3, y2 := 4 }
          [{ x := 5, y := 6, conf := 1 }, { x := 7, y := 8, conf := 0 }]
          10 10).filter isFillCircle =
        ([{ x := 5, y := 6, conf := 1 },
          { x := 7, y := 8, conf := 0 }].filter fun k : Keypoint =>
            decide (CONFIDENCE_THRESHOLD < k.conf)).map
          fun k => DrawCmd.fillCircle k.x k.y 5) :=
  ⟨by norm_num [CONFIDENCE_THRESHOLD],
   C7_keypoint_gating 1 { x1 := 1, y1 := 2, x2 := 3, y2 := 4 }
     [{ x := 5, y := 6, conf := 1 }, { x := 7, y := 8, conf := 0 }]
     10 10 (by norm_num [CONFIDENCE_THRESHOLD])⟩

/-- Raw model output tensor of logical shape [1, channels, anchors] (batch
size 1), read through strided access: data c a is the value at channel c of
anchor a. The source receives it as a Tensor3D of shape [1, 56, 8400]
(src/index.ts line 153) and only ever reads it through transpose and
slice, which this indexing models. -/
structure RawTensor where
  channels : ℕ
  anchors : ℕ
  data : ℕ → ℕ → ℚ

/-- Objectness scores read by getBestPrediction, src/index.ts lines
178-182: channel 4 of every anchor, in anchor order (the dataSync of the
confidence slice). -/
def anchorScores (t : RawTensor) : List ℚ :=
  (List.range t.anchors).map fun a => t.data 4 a

/-- Maximum of a list of rationals, modelling the JavaScript
Math.max(...scoresArray) spread call: none on the empty list (where
JavaScript returns negative infinity, an absent rational, and the
subsequent indexOf and slice calls fail). -/
def listMax : List ℚ → Option ℚ
  | [] => none
  | x :: xs => some (xs.foldl max x)

/-- Index of the best anchor, src/index.ts line 183:
scoresArray.indexOf(Math.max(...scoresArray)), the first occurrence of the
maximal objectness score in anchor order. The none branch is unreachable
under the guard of getBestPrediction. -/
def bestIndex (t : RawTensor) : ℕ :=
  match listMax (anchorScores t) with
  | some m => (anchorScores t).indexOf m
  | none => 0

/-- Keypoint payload of one anchor, src/index.ts lines 179 and 199-202:
the values of channels 5 up to channels - 1 at that anchor (the slice of
all remaining values after the box and score channels). -/
def anchorKeypointData (t : RawTensor) (a : ℕ) : List ℚ :=
  (List.range (t.channels - 5)).map fun j => t.data (5 + j) a

/-- Grouping of the keypoint payload into [x, y, confidence] triplets,
src/index.ts lines 208-213. The source loop steps by 3; a trailing
incomplete group (impossible for the 51-value payload of a 56-channel
tensor) would read absent array slots in JavaScript and is dropped here. -/
def chunk3 : List ℚ → List Keypoint
  | x :: y :: c :: rest => { x := x, y := y, conf := c } :: chunk3 rest
  | _ => []

/-- The prediction assembled from one anchor of the raw tensor,
src/index.ts lines 187-221: the corner-format box from channels 0-3, the
score from channel 4, and the grouped keypoints from the remaining
channels. -/
def anchorPrediction (t : RawTensor) (i : ℕ) : Prediction :=
  { box := cornerBox (t.data 0 i) (t.data 1 i) (t.data 2 i) (t.data 3 i)
    score := t.data 4 i
    keypoints := chunk3 (anchorKeypointData t i) }

/-- Translation of getBestPrediction, src/index.ts lines 158-222: the
prediction of the anchor holding the first occurrence of the maximal
channel-4 score. The source performs no shape validation; the guard models
the only shapes on which its tensor operations fail at runtime (the slice
at channel offset 4 needs at least 5 channels, and an empty anchor axis
makes Math.max return negative infinity so that indexOf yields -1 and the
subsequent slice call throws): every other shape is processed silently. -/
def getBestPrediction (t : RawTensor) : Option Prediction :=
  if 5 ≤ t.channels ∧ 1 ≤ t.anchors then
    some (anchorPrediction t (bestIndex t))
  else
    none

/-- Length of the objectness score list. -/
theorem anchorScores_length (t : RawTensor) :
    (anchorScores t).length = t.anchors := by
  simp [anchorScores]

/-- Entry of the objectness score list. -/
theorem anchorScores_getElem (t : RawTensor) (j : ℕ)
    (hj : j < (anchorScores t).length) :
    (anchorScores t)[j] = t.data 4 j := by
  simp [anchorScores]

/-- The initial value of a max fold is a lower bound of the fold. -/
theorem le_foldl_max (xs : List ℚ) (x : ℚ) : x ≤ xs.foldl max x := by
  induction xs generalizing x with
  | nil => exact le_refl x
  | cons y ys ih => exact le_trans (le_max_left x y) (ih (max x y))

/-- Every list member is a lower bound of the max fold. -/
theorem mem_le_foldl_max (xs : List ℚ) (x a : ℚ) (ha : a ∈ xs) :
    a ≤ xs.foldl max x := by
  induction xs generalizing x with
  | nil => cases ha
  | cons y ys ih =>
    rcases List.mem_cons.mp ha with h | h
    · subst h
      exact le_trans (le_max_right x a) (le_foldl_max ys (max x a))
    · exact ih (max x y) h

/-- The max fold returns its initial value or a list member. -/
theorem foldl_max_mem (xs : List ℚ) (x : ℚ) :
    xs.foldl max x = x ∨ xs.foldl max x ∈ xs := by
  induction xs generalizing x with
  | nil => exact Or.inl rfl
  | cons y ys ih =>
    rcases ih (max x y) with h | h
    · rcases max_choice x y with hc | hc
      · exact Or.inl (by rw [List.foldl_cons, h, hc])
      · exact Or.inr (by
          rw [List.foldl_cons, h, hc]
          exact List.mem_cons_self y ys)
    · exact Or.inr (List.mem_cons_of_mem y h)

/-- The value computed by listMax is a member of the list. -/
theorem listMax_mem {l : List ℚ} {m : ℚ} (h : listMax l = some m) :
    m ∈ l := by
  cases l with
  | nil => cases h
  | cons x xs =>
    injection h with h2
    rcases foldl_max_mem xs x with h3 | h3
    · rw [← h2, h3]
      exact List.mem_cons_self x xs
    · rw [← h2]
      exact List.mem_cons_of_mem x h3

/-- The value computed by listMax bounds every member of the list. -/
theorem le_listMax {l : List ℚ} {m : ℚ} (h : listMax l = some m) (a : ℚ)
    (ha : a ∈ l) : a ≤ m := by
  cases l with
  | nil => cases ha
  | cons x xs =>
    injection h with h2
    rw [← h2]
    rcases List.mem_cons.mp ha with h3 | h3
    · subst h3
      exact le_foldl_max xs a
    · exact mem_le_foldl_max xs x a h3

/-- Entries strictly before the first occurrence of a value differ from
that value. -/
theorem getElem_lt_indexOf_ne {l : List ℚ} {a : ℚ} {j : ℕ}
    (hj : j < l.length) (h : j < l.indexOf a) : l[j] ≠ a := by
  have h2 := @List.not_of_lt_findIdx ℚ (fun x => x == a) l j h
  simpa using h2

/-- The selected index is in range, carries the maximal objectness score,
and is the first index with that score. -/
theorem bestIndex_spec (t : RawTensor) (ht : 1 ≤ t.anchors) :
    bestIndex t < t.anchors ∧
    (∀ j, j < t.anchors → t.data 4 j ≤ t.data 4 (bestIndex t)) ∧
    (∀ j, j < bestIndex t → t.data 4 j < t.data 4 (bestIndex t)) := by
  have hlen : (anchorScores t).length = t.anchors := anchorScores_length t
  obtain ⟨m, hm⟩ : ∃ m, listMax (anchorScores t) = some m := by
    cases hl : anchorScores t with
    | nil =>
      rw [hl] at hlen
      simp at hlen
      omega
    | cons x xs => exact ⟨xs.foldl max x, rfl⟩
  have hbest : bestIndex t = (anchorScores t).indexOf m := by
    rw [bestIndex, hm]
  have hmmem : m ∈ anchorScores t := listMax_mem hm
  have hidx : (anchorScores t).indexOf m < (anchorScores t).length :=
    List.indexOf_lt_length.mpr hmmem
  have hdata : t.data 4 (bestIndex t) = m := by
    rw [hbest, ← anchorScores_getElem t _ hidx]
    exact List.getElem_indexOf hidx
  refine ⟨?_, ?_, ?_⟩
  · rw [hbest]
    omega
  · intro j hj
    have hj2 : j < (anchorScores t).length := by omega
    rw [← anchorScores_getElem t j hj2, hdata]
    exact le_listMax hm _ (List.getElem_mem hj2)
  · intro j hj
    rw [hbest] at hj
    have hj2 : j < (anchorScores t).length := by omega
    have hne : (anchorScores t)[j] ≠ m := getElem_lt_indexOf_ne hj2 hj
    have hle : (anchorScores t)[j] ≤ m :=
      le_listMax hm _ (List.getElem_mem hj2)
    rw [← anchorScores_getElem t j hj2, hdata]
    exact lt_of_le_of_ne hle hne

/-- C2: best-detection selection. For every raw tensor of shape
[1, 56, 8400], getBestPrediction returns the prediction (box, score and
keypoints) assembled from the anchor whose channel-4 objectness score is
maximal, with no thresholding and no non-max suppression; ties are broken
by the lowest anchor index (every strictly earlier anchor has a strictly
smaller score), so when all 8400 scores are equal the first anchor wins. -/
theorem C2_best_detection (data : ℕ → ℕ → ℚ) :
    getBestPrediction ⟨56, 8400, data⟩ =
      some (anchorPrediction ⟨56, 8400, data⟩ (bestIndex ⟨56, 8400, data⟩)) ∧
    bestIndex ⟨56, 8400, data⟩ < 8400 ∧
    (∀ j, j < 8400 → data 4 j ≤ data 4 (bestIndex ⟨56, 8400, data⟩)) ∧
    (∀ j, j < bestIndex ⟨56, 8400, data⟩ →
      data 4 j < data 4 (bestIndex ⟨56, 8400, data⟩)) ∧
    ((∀ j, j < 8400 → data 4 j = data 4 0) →
      bestIndex ⟨56, 8400, data⟩ = 0) := by
  obtain ⟨h1, h2, h3⟩ := bestIndex_spec ⟨56, 8400, data⟩ (by norm_num)
  refine ⟨?_, h1, h2, h3, ?_⟩
  · rw [getBestPrediction,
      if_pos ⟨(by norm_num : (5 : ℕ) ≤ 56), (by norm_num : (1 : ℕ) ≤ 8400)⟩]
  · intro hall
    by_contra h0
    have hpos : 0 < bestIndex ⟨56, 8400, data⟩ := Nat.pos_of_ne_zero h0
    have hlt : data 4 0 < data 4 (bestIndex ⟨56, 8400, data⟩) := h3 0 hpos
    have heq := hall (bestIndex ⟨56, 8400, data⟩) h1
    rw [heq] at hlt
    exact lt_irrefl _ hlt

/-- C2 witness: the selection theorem applied to the all-zero tensor of
shape [1, 56, 8400]: the score of anchor 0 is bounded by the score of the
selected anchor, and since all scores are equal the first anchor wins. -/
theorem C2_best_detection_witness :
    (0 < 8400 ∧
      (fun _ _ => (0 : ℚ)) 4 0 ≤
        (fun _ _ => (0 : ℚ)) 4 (bestIndex ⟨56, 8400, fun _ _ => (0 : ℚ)⟩)) ∧
    bestIndex ⟨56, 8400, fun _ _ => (0 : ℚ)⟩ = 0 :=
  ⟨⟨by norm_num,
    (C2_best_detection fun _ _ => (0 : ℚ)).2.2.1 0 (by norm_num)⟩,
   (C2_best_detection fun _ _ => (0 : ℚ)).2.2.2.2 fun j hj => rfl⟩

/-- C9 counterexample: a raw tensor whose channel count is 59 instead of
the expected 56 is processed silently by the selector (it returns a
prediction rather than failing), contrary to the claim that a shape
mismatch fails fast with a configuration error. -/
theorem C9_counterexample :
    (getBestPrediction ⟨59, 8400, fun _ _ => (0 : ℚ)⟩).isSome = true := by
  rw [getBestPrediction,
    if_pos ⟨(by norm_num : (5 : ℕ) ≤ 59), (by norm_num : (1 : ℕ) ≤ 8400)⟩]
  rfl

/-- C9 amended: the selector performs no shape validation at all. It
produces a prediction exactly when the tensor offers at least the five box
and score channels and at least one anchor; every mismatched layout
meeting those bounds, such as [1, 59, 8400], is handled silently, and the
only failing shapes are those on which the underlying tensor slice and
index operations themselves fail (fewer than 5 channels or zero anchors),
not a configuration check. -/
theorem C9_no_shape_check (t : RawTensor) :
    (getBestPrediction t).isSome = true ↔
      5 ≤ t.channels ∧ 1 ≤ t.anchors := by
  rw [getBestPrediction]
  split <;> simp_all

/-- C8 counterexample: in the worked scenario (source 400x300, model
640x640), the raw center-format box [320, 320, 64, 96], after the corner
conversion of the selector and the unmapping of scalePrediction, yields a
source-space corner-format box starting at (180, 120), not at (200, 150)
as the claim states (the claim unmapped the box center instead of its
corner). -/
theorem C8_counterexample :
    ¬ ((scalePrediction
          { box := cornerBox 320 320 64 96, score := 1, keypoints := [] }
          (letterboxTransformParams 400 300 640)).box.x1 = 200 ∧
       (scalePrediction
          { box := cornerBox 320 320 64 96, score := 1, keypoints := [] }
          (letterboxTransformParams 400 300 640)).box.y1 = 150) := by
  dsimp only [scalePrediction, transformCoordinate, letterboxTransformParams,
    computeLetterbox, cornerBox]
  norm_num

/-- C8 amended: worked scenario. For the 400x300 source and the 640x640
model input, the letterbox computes targetSquareSize = 400, xOffset = 0,
topPad = 50, bottomPad = 50 and scale = 400/640 = 5/8; the raw
center-format detection box [320, 320, 64, 96], after corner conversion
and unmapping, yields the corner-format source-space box starting at
(180, 120) and ending at (220, 180), whose center unmaps to (200, 150). -/
theorem C8_worked_scenario :
    (computeLetterbox 400 300 640).targetSquareSize = 400 ∧
    (computeLetterbox 400 300 640).xOffset = 0 ∧
    (computeLetterbox 400 300 640).topPadding = 50 ∧
    (computeLetterbox 400 300 640).bottomPadding = 50 ∧
    (computeLetterbox 400 300 640).scale = 5 / 8 ∧
    (scalePrediction
        { box := cornerBox 320 320 64 96, score := 1, keypoints := [] }
        (letterboxTransformParams 400 300 640)).box =
      { x1 := 180, y1 := 120, x2 := 220, y2 := 180 } ∧
    ((scalePrediction
        { box := cornerBox 320 320 64 96, score := 1, keypoints := [] }
        (letterboxTransformParams 400 300 640)).box.x1 +
      (scalePrediction
        { box := cornerBox 320 320 64 96, score := 1, keypoints := [] }
        (letterboxTransformParams 400 300 640)).box.x2) / 2 = 200 ∧
    ((scalePrediction
        { box := cornerBox 320 320 64 96, score := 1, keypoints := [] }
        (letterboxTransformParams 400 300 640)).box.y1 +
      (scalePrediction
        { box := cornerBox 320 320 64 96, score := 1, keypoints := [] }
        (letterboxTransformParams 400 300 640)).box.y2) / 2 = 150 := by
  dsimp only [scalePrediction, transformCoordinate, letterboxTransformParams,
    computeLetterbox, cornerBox]
  norm_num

end CVWeb
